import Mathlib

set_option linter.unusedVariables false

/-! Shallow embedding of the AQL query-cursor execution core of the
`arangors` client library (`src/database.rs`), together with the response
envelope decoder and the query value that `database.rs` imports from the
crate's `response` and `aql` modules. -/

/-- Structured JSON values, the data interchanged with the server. -/
inductive Json where
  | null
  | bool (b : Bool)
  | num (n : Int)
  | str (s : String)
  | arr (elements : List Json)
  | obj (fields : List (String × Json))

mutual

/-- Rendering of a JSON value to its wire text. -/
def Json.render : Json → String
  | .null => "null"
  | .bool true => "true"
  | .bool false => "false"
  | .num n => toString n
  | .str s => "\"" ++ s ++ "\""
  | .arr xs => "[" ++ Json.renderList xs ++ "]"
  | .obj fs => "\x7b" ++ Json.renderFields fs ++ "\x7d"

/-- Rendering of a JSON array body. -/
def Json.renderList : List Json → String
  | [] => ""
  | [x] => Json.render x
  | x :: y :: xs => Json.render x ++ "," ++ Json.renderList (y :: xs)

/-- Rendering of a JSON object body. -/
def Json.renderFields : List (String × Json) → String
  | [] => ""
  | [(k, v)] => "\"" ++ k ++ "\":" ++ Json.render v
  | (k, v) :: f :: fs =>
    "\"" ++ k ++ "\":" ++ Json.render v ++ "," ++ Json.renderFields (f :: fs)

end

/-- HTTP method of a request issued through the `ClientExt` session. -/
inductive Method where
  | GET
  | POST
  | PUT
  | DELETE
  deriving DecidableEq

/-- One network request issued through the session handle. -/
structure Request where
  method : Method
  url : String
  body : String
  deriving DecidableEq

/-- Modelled from the spec: the error taxonomy of the crate's `response`
module (not under `src/`), section 7 of the specification.
`ProtocolViolation` is the protocol error of section 3, raised when a
success envelope has `hasMore = true` but no continuation id. -/
inductive Err where
  | TransportError (message : String)
  | MalformedResponse
  | ServerError (status : Int) (errorNum : Int) (message : String)
  | SchemaMismatch
  | ProtocolViolation (message : String)
  deriving DecidableEq

/-- Modelled from the spec: the `Cursor` type of the crate's `response`
module (not under `src/`), one page of a paginated result set.  Field
names follow the uses in `database.rs` (`cursor.result`, `cursor.more`,
`cursor.id`). -/
structure Cursor (α : Type) where
  result : List α
  more : Bool
  id : Option String
  count : Option Int
  deriving DecidableEq

/-- The `Database` context of `database.rs`: the logical database name,
the base address derived from it, and the shared session handle.  The
`Arc<C: ClientExt>` transport is embedded as a function from a request to
either a transport error or the parsed JSON of the response body (`none`
when the body is not parseable JSON). -/
structure Database where
  name : String
  base_url : String
  session : Request → Except Err (Option Json)

/-- Url::join of a relative path onto a base url ending in a slash
(`Database::new` builds `base_url` as `.../_db/<name>/`), which appends
the path. -/
def urlJoin (base rel : String) : String := base ++ rel

/-- Lookup of a field in a JSON object field list. -/
def lookupField (key : String) : List (String × Json) → Option Json
  | [] => none
  | (k, v) :: rest => if k = key then some v else lookupField key rest

/-- Field access on a JSON value: `none` unless the value is an object
holding the field. -/
def Json.getField : Json → String → Option Json
  | .obj fields, key => lookupField key fields
  | _, _ => none

/-- Decoding of every element of a JSON array with the item decoder. -/
def decodeItems (dec : Json → Option α) : List Json → Option (List α)
  | [] => some []
  | x :: xs =>
    match dec x, decodeItems dec xs with
    | some a, some rest => some (a :: rest)
    | _, _ => none

/-- Decoding of an optional string field (an absent field is fine, a
present field of the wrong type is not). -/
def decodeOptStr : Option Json → Option (Option String)
  | none => some none
  | some (.str s) => some (some s)
  | some _ => none

/-- Decoding of an optional integer field. -/
def decodeOptInt : Option Json → Option (Option Int)
  | none => some none
  | some (.num n) => some (some n)
  | some _ => none

/-- Modelled from the spec: `serialize_query_response` of the crate's
`response` module (not under `src/`), the envelope decoder of section
4.1.  It first inspects the boolean `error` discriminant; on `true` it
builds a `ServerError` from the failure envelope; on `false` it decodes
the success envelope into a `Cursor`, rejecting a page whose `hasMore` is
`true` without a continuation id. -/
def serialize_query_response (dec : Json → Option α) :
    Option Json → Except Err (Cursor α)
  | none => .error .MalformedResponse
  | some body =>
    match body.getField "error" with
    | some (.bool true) =>
      match body.getField "code", body.getField "errorNum",
          body.getField "errorMessage" with
      | some (.num status), some (.num errorNum), some (.str message) =>
        .error (.ServerError status errorNum message)
      | _, _, _ => .error .MalformedResponse
    | some (.bool false) =>
      match body.getField "result" with
      | some (.arr items) =>
        match decodeItems dec items with
        | none => .error .SchemaMismatch
        | some decoded =>
          match body.getField "hasMore" with
          | some (.bool hasMore) =>
            match decodeOptStr (body.getField "id"),
                decodeOptInt (body.getField "count") with
            | some cid, some cnt =>
              if hasMore && cid.isNone then
                .error (.ProtocolViolation "hasMore is true but id is absent")
              else
                .ok ⟨decoded, hasMore, cid, cnt⟩
            | _, _ => .error .SchemaMismatch
          | _ => .error .SchemaMismatch
      | _ => .error .SchemaMismatch
    | _ => .error .MalformedResponse

/-- Modelled from the spec: the `AqlQuery` value of the crate's `aql`
module (not under `src/`): query text, a mapping from bind-variable name
to JSON value (keys unique, order irrelevant — kept sorted by key as the
canonical representation of a mapping), and optional execution options. -/
structure AqlQuery where
  query : String
  bindVars : List (String × Json)
  batchSize : Option Int
  cache : Option Bool
  ttl : Option Int

/-- Modelled from the spec: `AqlQuery::new` builds a query with the given
text and no bindings or options. -/
def AqlQuery.new (query : String) : AqlQuery := ⟨query, [], none, none, none⟩

/-- Insertion into the bind-variable mapping: replaces an existing
binding of the same key, otherwise inserts in key order. -/
def insertVar (key : String) (value : Json) :
    List (String × Json) → List (String × Json)
  | [] => [(key, value)]
  | (k, v) :: rest =>
    if key = k then (key, value) :: rest
    else if key < k then (key, value) :: (k, v) :: rest
    else (k, v) :: insertVar key value rest

/-- Modelled from the spec: `AqlQuery::bind_var` attaches one binding. -/
def AqlQuery.bind_var (aql : AqlQuery) (key : String) (value : Json) : AqlQuery :=
  { aql with bindVars := insertVar key value aql.bindVars }

/-- Modelled from the spec: serde serialization of an `AqlQuery` into the
first-page request body of section 6. -/
def serializeAql (aql : AqlQuery) : String :=
  Json.render (Json.obj
    ([("query", .str aql.query), ("bindVars", .obj aql.bindVars)]
      ++ (match aql.batchSize with
          | some n => [("batchSize", Json.num n)]
          | none => [])
      ++ (match aql.cache with
          | some b => [("cache", Json.bool b)]
          | none => [])
      ++ (match aql.ttl with
          | some n => [("ttl", Json.num n)]
          | none => [])))

/-- The cursor-creation request of `aql_query_batch`: a POST to
`base_url.join("_api/cursor")` with the serialized query as body. -/
def queryReq (db : Database) (aql : AqlQuery) : Request :=
  ⟨.POST, urlJoin db.base_url "_api/cursor", serializeAql aql⟩

/-- The continuation request of `aql_next_batch`: a PUT to
`base_url.join("_api/cursor/<id>")` with an empty body. -/
def cursorReq (db : Database) (cursor_id : String) : Request :=
  ⟨.PUT, urlJoin db.base_url ("_api/cursor/" ++ cursor_id), ""⟩

/-- Embedding of `Database::aql_query_batch` (database.rs lines 157-169):
issue the POST, propagate a transport error, decode the response text
with the envelope decoder.  The first component records the network
requests issued by the call. -/
def aql_query_batch (db : Database) (dec : Json → Option α) (aql : AqlQuery) :
    List Request × Except Err (Cursor α) :=
  ([queryReq db aql],
    match db.session (queryReq db aql) with
    | .error e => .error e
    | .ok raw => serialize_query_response dec raw)

/-- Embedding of `Database::aql_next_batch` (database.rs lines 172-184). -/
def aql_next_batch (db : Database) (dec : Json → Option α) (cursor_id : String) :
    List Request × Except Err (Cursor α) :=
  ([cursorReq db cursor_id],
    match db.session (cursorReq db cursor_id) with
    | .error e => .error e
    | .ok raw => serialize_query_response dec raw)

/-- Outcome of the aggregation loop.  `fail` embeds the Rust `Err`
return, `panicked` the `Option::unwrap` panic on a cursor with
`more = true` and no id, and `fuelOut` marks that the loop was cut off by
the fuel bound of the embedding (the Rust `loop` has no such bound). -/
inductive FetchResult (α : Type) where
  | ok (items : List α)
  | fail (e : Err)
  | panicked
  | fuelOut
  deriving DecidableEq

/-- Embedding of the `loop` of `Database::aql_fetch_all` (database.rs
lines 193-201), with `results` the accumulator.  Note the source appends
`response_cursor.result` to the accumulator only in the `more == true`
branch and breaks without appending when `more == false`. -/
def aql_fetch_all_loop (db : Database) (dec : Json → Option α) :
    Nat → Cursor α → List α → List Request × FetchResult α
  | 0, _, _ => ([], .fuelOut)
  | fuel + 1, cursor, results =>
    if cursor.more then
      match cursor.id with
      | none => ([], .panicked)
      | some cid =>
        match aql_next_batch db dec cid with
        | (reqs, .error e) => (reqs, .fail e)
        | (reqs, .ok next) =>
          let tail := aql_fetch_all_loop db dec fuel next (results ++ cursor.result)
          (reqs ++ tail.1, tail.2)
    else
      ([], .ok results)

/-- Embedding of `Database::aql_fetch_all` (database.rs lines 186-203). -/
def aql_fetch_all (db : Database) (dec : Json → Option α) (fuel : Nat)
    (response : Cursor α) : List Request × FetchResult α :=
  aql_fetch_all_loop db dec fuel response []

/-- Embedding of `Database::aql_query` (database.rs lines 212-224): one
unconditional submit, then the aggregation loop only when the first page
has `more = true`; a first page with `more = false` returns its items
directly. -/
def aql_query (db : Database) (dec : Json → Option α) (fuel : Nat)
    (aql : AqlQuery) : List Request × FetchResult α :=
  match aql_query_batch db dec aql with
  | (reqs, .error e) => (reqs, .fail e)
  | (reqs, .ok response) =>
    if response.more then
      let tail := aql_fetch_all db dec fuel response
      (reqs ++ tail.1, tail.2)
    else
      (reqs, .ok response.result)

/-- Embedding of `Database::aql_str` (database.rs lines 228-235). -/
def aql_str (db : Database) (dec : Json → Option α) (fuel : Nat)
    (query : String) : List Request × FetchResult α :=
  aql_query db dec fuel (AqlQuery.new query)

/-- Embedding of `Database::aql_bind_vars` (database.rs lines 239-253):
the bind-variable mapping is iterated (in the list's order) and attached
with `bind_var`, then `aql_query` runs the built query. -/
def aql_bind_vars (db : Database) (dec : Json → Option α) (fuel : Nat)
    (query : String) (bind_vars : List (String × Json)) :
    List Request × FetchResult α :=
  aql_query db dec fuel
    (bind_vars.foldl (fun aql kv => aql.bind_var kv.1 kv.2) (AqlQuery.new query))

/-- State-passing reading of the `&self` method `aql_query_batch`: the
method reads `base_url` and `session` and assigns no field of the
receiver, so the context after the call is the context before. -/
def aql_query_batch_step (db : Database) (dec : Json → Option α)
    (aql : AqlQuery) : Database × (List Request × Except Err (Cursor α)) :=
  (db, aql_query_batch db dec aql)

/-- State-passing reading of the `&self` method `aql_next_batch`. -/
def aql_next_batch_step (db : Database) (dec : Json → Option α)
    (cursor_id : String) : Database × (List Request × Except Err (Cursor α)) :=
  (db, aql_next_batch db dec cursor_id)

/-- A server-side cursor chain: starting from `c`, the cursors of `rest`
are obtained by successive successful `aql_next_batch` calls, every link
has `more = true` with its id present, and the final cursor has
`more = false`. -/
def CursorChain (db : Database) (dec : Json → Option α) :
    Cursor α → List (Cursor α) → Prop
  | c, [] => c.more = false
  | c, next :: rest => c.more = true ∧ ∃ cid, c.id = some cid ∧
      (aql_next_batch db dec cid).2 = .ok next ∧ CursorChain db dec next rest

/-- A cursor chain whose advance fails: after `k` successful advances
from `c` (each visited cursor has `more = true` and an id), the next
advance returns `Except.error e`. -/
def ChainFails (db : Database) (dec : Json → Option α) (e : Err) :
    Cursor α → Nat → Prop
  | c, 0 => c.more = true ∧ ∃ cid, c.id = some cid ∧
      (aql_next_batch db dec cid).2 = .error e
  | c, k + 1 => c.more = true ∧ ∃ cid, c.id = some cid ∧ ∃ next,
      (aql_next_batch db dec cid).2 = .ok next ∧ ChainFails db dec e next k

/-- Item decoder for plain integer result items. -/
def Json.asInt : Json → Option Int
  | .num n => some n
  | _ => none

/-- Decidable equality of `Except` values with decidable components. -/
instance {ε α : Type} [DecidableEq ε] [DecidableEq α] : DecidableEq (Except ε α) :=
  fun a b =>
    match a, b with
    | .error e, .error e' =>
      if h : e = e' then isTrue (by rw [h])
      else isFalse (by intro hh; cases hh; exact h rfl)
    | .ok x, .ok y =>
      if h : x = y then isTrue (by rw [h])
      else isFalse (by intro hh; cases hh; exact h rfl)
    | .error _, .ok _ => isFalse (by intro hh; cases hh)
    | .ok _, .error _ => isFalse (by intro hh; cases hh)

/-- Success envelope of the first example page: one item, more pages. -/
def page1Body : Json :=
  .obj [("error", .bool false), ("result", .arr [.num 1]),
    ("hasMore", .bool true), ("id", .str "c1")]

/-- Success envelope of the final example page: two items, no more pages. -/
def page2Body : Json :=
  .obj [("error", .bool false), ("result", .arr [.num 2, .num 3]),
    ("hasMore", .bool false)]

/-- Success envelope of a single-page response. -/
def singleBody : Json :=
  .obj [("error", .bool false), ("result", .arr [.num 7]),
    ("hasMore", .bool false)]

/-- Failure envelope: cursor not found. -/
def err404Body : Json :=
  .obj [("error", .bool true), ("code", .num 404), ("errorNum", .num 1600),
    ("errorMessage", .str "cursor not found")]

/-- Success envelope whose items are objects, not plain integers. -/
def mismatchBody : Json :=
  .obj [("error", .bool false),
    ("result", .arr [.obj [("a", .num 1)]]), ("hasMore", .bool false)]

/-- Success envelope violating the cursor invariant: more pages claimed
but no continuation id. -/
def noIdBody : Json :=
  .obj [("error", .bool false), ("result", .arr [.num 9]),
    ("hasMore", .bool true)]

/-- Example server of a two-page chain: the POST yields `page1Body`, the
continuation PUT for id `c1` yields `page2Body`. -/
def exServer : Request → Except Err (Option Json) := fun req =>
  if req.method = .POST then .ok (some page1Body)
  else if req.url = "b/_api/cursor/c1" then .ok (some page2Body)
  else .error (.TransportError "unexpected request")

/-- Example database context over the two-page server. -/
def exDb : Database := ⟨"t", "b/", exServer⟩

/-- Example server of a single-page response. -/
def exServer1 : Request → Except Err (Option Json) := fun req =>
  if req.method = .POST then .ok (some singleBody)
  else .error (.TransportError "unexpected request")

/-- Example database context over the single-page server. -/
def exDb1 : Database := ⟨"t", "b/", exServer1⟩

/-- Example server whose continuation fetch fails at the transport. -/
def exServer2 : Request → Except Err (Option Json) := fun req =>
  if req.method = .POST then .ok (some page1Body)
  else .error (.TransportError "boom")

/-- Example database context over the failing-continuation server. -/
def exDb2 : Database := ⟨"t", "b/", exServer2⟩

/-- First example page as a decoded cursor. -/
def p1 : Cursor Int := ⟨[1], true, some "c1", none⟩

/-- Final example page as a decoded cursor. -/
def p2 : Cursor Int := ⟨[2, 3], false, none, none⟩

example : serialize_query_response Json.asInt (some page1Body) = .ok p1 := by decide
example : serialize_query_response Json.asInt (some page2Body) = .ok p2 := by decide
example : (aql_query_batch exDb Json.asInt (AqlQuery.new "q")).2 = .ok p1 := by decide
example : (aql_next_batch exDb Json.asInt "c1").2 = .ok p2 := by decide
example : (aql_query exDb Json.asInt 10 (AqlQuery.new "q")).2 = .ok [1] := by decide
example : (aql_query exDb1 Json.asInt 10 (AqlQuery.new "q")).2 = .ok [7] := by decide
example : (aql_query exDb2 Json.asInt 10 (AqlQuery.new "q")).2
    = .fail (.TransportError "boom") := by decide
example : serialize_query_response Json.asInt (some err404Body)
    = .error (.ServerError 404 1600 "cursor not found") := by decide
example : serialize_query_response Json.asInt (some mismatchBody)
    = .error .SchemaMismatch := by decide
example : serialize_query_response Json.asInt (some noIdBody)
    = .error (.ProtocolViolation "hasMore is true but id is absent") := by decide
example : (aql_query exDb Json.asInt 10 (AqlQuery.new "q")).1
    = [⟨.POST, "b/_api/cursor", serializeAql (AqlQuery.new "q")⟩,
       ⟨.PUT, "b/_api/cursor/c1", ""⟩] := by decide

theorem next_batch_pair (db : Database) (dec : Json → Option α) (cid : String)
    (r : Except Err (Cursor α)) (h : (aql_next_batch db dec cid).2 = r) :
    aql_next_batch db dec cid = ([cursorReq db cid], r) :=
  Prod.ext rfl h

theorem query_batch_pair (db : Database) (dec : Json → Option α) (aql : AqlQuery)
    (r : Except Err (Cursor α)) (h : (aql_query_batch db dec aql).2 = r) :
    aql_query_batch db dec aql = ([queryReq db aql], r) :=
  Prod.ext rfl h

theorem fetch_loop_chain (db : Database) (dec : Json → Option α) :
    ∀ (rest : List (Cursor α)) (c : Cursor α) (acc : List α) (fuel : Nat),
      CursorChain db dec c rest → rest.length < fuel →
      (aql_fetch_all_loop db dec fuel c acc).2
          = .ok (acc ++ (((c :: rest).dropLast.map Cursor.result).flatten))
        ∧ (aql_fetch_all_loop db dec fuel c acc).1.length = rest.length
        ∧ ∀ r ∈ (aql_fetch_all_loop db dec fuel c acc).1, r.method = .PUT := by
  intro rest
  induction rest with
  | nil =>
    intro c acc fuel hchain hfuel
    simp only [CursorChain] at hchain
    obtain ⟨fuel, rfl⟩ : ∃ f, fuel = f + 1 := ⟨fuel - 1, by omega⟩
    simp [aql_fetch_all_loop, hchain]
  | cons next rest ih =>
    intro c acc fuel hchain hfuel
    simp only [CursorChain] at hchain
    obtain ⟨hmore, cid, hid, hadv, hrest⟩ := hchain
    obtain ⟨fuel, rfl⟩ : ∃ f, fuel = f + 1 := ⟨fuel - 1, by omega⟩
    have hpair := next_batch_pair db dec cid _ hadv
    have ihr := ih next (acc ++ c.result) fuel hrest (by simp at hfuel; omega)
    simp only [aql_fetch_all_loop, hmore, hid, hpair, if_true]
    refine ⟨?_, ?_, ?_⟩
    · rw [ihr.1]
      simp [List.dropLast_cons₂, List.append_assoc]
    · simp [ihr.2.1]
    · intro r hr
      simp only [List.cons_append, List.nil_append, List.mem_cons] at hr
      rcases hr with rfl | hr
      · rfl
      · exact ihr.2.2 r hr

theorem fetch_loop_chainFails (db : Database) (dec : Json → Option α) (e : Err) :
    ∀ (k : Nat) (c : Cursor α) (acc : List α) (fuel : Nat),
      ChainFails db dec e c k → k < fuel →
      (aql_fetch_all_loop db dec fuel c acc).2 = .fail e := by
  intro k
  induction k with
  | zero =>
    intro c acc fuel hfail hfuel
    simp only [ChainFails] at hfail
    obtain ⟨hmore, cid, hid, hadv⟩ := hfail
    obtain ⟨fuel, rfl⟩ : ∃ f, fuel = f + 1 := ⟨fuel - 1, by omega⟩
    have hpair := next_batch_pair db dec cid _ hadv
    simp [aql_fetch_all_loop, hmore, hid, hpair]
  | succ k ih =>
    intro c acc fuel hfail hfuel
    simp only [ChainFails] at hfail
    obtain ⟨hmore, cid, hid, next, hadv, hrest⟩ := hfail
    obtain ⟨fuel, rfl⟩ : ∃ f, fuel = f + 1 := ⟨fuel - 1, by omega⟩
    have hpair := next_batch_pair db dec cid _ hadv
    simp only [aql_fetch_all_loop, hmore, hid, hpair, if_true]
    exact ih next (acc ++ c.result) fuel hrest (by omega)

/-- C8: under the precondition that the server's chain of successor
cursors is finite and ends in a cursor with `hasMore = false`, the
aggregation loop of `aql_fetch_all` performs exactly one advance call per
chain link (finitely many) and returns, with the same value for every
sufficient fuel bound. -/
theorem aql_fetch_all_terminates (db : Database) (dec : Json → Option α)
    (c : Cursor α) (rest : List (Cursor α)) (fuel : Nat)
    (hchain : CursorChain db dec c rest) (hfuel : rest.length < fuel) :
    (aql_fetch_all db dec fuel c).2
        = .ok (((c :: rest).dropLast.map Cursor.result).flatten)
      ∧ (aql_fetch_all db dec fuel c).1.length = rest.length := by
  have h := fetch_loop_chain db dec rest c [] fuel hchain hfuel
  exact ⟨by simpa using h.1, h.2.1⟩

/-- C8 witness: the two-page example chain returns after exactly one
advance call. -/
theorem aql_fetch_all_terminates_witness :
    (aql_fetch_all exDb Json.asInt 10 p1).2 = .ok [1]
      ∧ (aql_fetch_all exDb Json.asInt 10 p1).1.length = 1 := by
  have h := aql_fetch_all_terminates exDb Json.asInt p1 [p2] 10
    (by exact ⟨rfl, "c1", rfl, by decide, rfl⟩) (by simp)
  simpa using h

/-- C4: for an N-page cursor chain (first page `c`, successors `rest`,
so N = rest.length + 1), `aql_query` issues exactly N network calls: the
unconditional POST of the submit followed by one PUT advance per
subsequent page. -/
theorem aql_query_call_count (db : Database) (dec : Json → Option α)
    (fuel : Nat) (aql : AqlQuery) (c : Cursor α) (rest : List (Cursor α))
    (hsub : (aql_query_batch db dec aql).2 = .ok c)
    (hchain : CursorChain db dec c rest) (hfuel : rest.length < fuel) :
    (aql_query db dec fuel aql).1.length = rest.length + 1
      ∧ ∃ puts, (aql_query db dec fuel aql).1 = queryReq db aql :: puts
        ∧ puts.length = rest.length ∧ ∀ r ∈ puts, r.method = .PUT := by
  have hpair := query_batch_pair db dec aql _ hsub
  cases rest with
  | nil =>
    simp only [CursorChain] at hchain
    simp [aql_query, hpair, hchain]
  | cons next rest =>
    have hmore : c.more = true := by
      simp only [CursorChain] at hchain
      exact hchain.1
    have h := fetch_loop_chain db dec (next :: rest) c [] fuel hchain hfuel
    simp only [aql_query, hpair, hmore, if_true]
    constructor
    · simp [aql_fetch_all] at h ⊢
      omega
    · exact ⟨(aql_fetch_all db dec fuel c).1, by simp, h.2.1, h.2.2⟩

/-- C4 witness: the two-page example chain issues exactly two calls, the
POST and one PUT. -/
theorem aql_query_call_count_witness :
    (aql_query exDb Json.asInt 10 (AqlQuery.new "q")).1.length = 1 + 1
      ∧ ∃ puts, (aql_query exDb Json.asInt 10 (AqlQuery.new "q")).1
          = queryReq exDb (AqlQuery.new "q") :: puts
        ∧ puts.length = 1 ∧ ∀ r ∈ puts, r.method = .PUT := by
  have h := aql_query_call_count exDb Json.asInt 10 (AqlQuery.new "q") p1 [p2]
    (by decide) (by exact ⟨rfl, "c1", rfl, by decide, rfl⟩) (by simp)
  simpa using h

/-- C5: when the first page already has `hasMore = false`, `aql_query`
issues exactly one network call (the POST) and returns exactly that
page's items. -/
theorem aql_query_single_page (db : Database) (dec : Json → Option α)
    (fuel : Nat) (aql : AqlQuery) (c : Cursor α)
    (hsub : (aql_query_batch db dec aql).2 = .ok c) (hm : c.more = false) :
    aql_query db dec fuel aql = ([queryReq db aql], .ok c.result)
      ∧ (aql_query db dec fuel aql).1.length = 1 := by
  have hpair := query_batch_pair db dec aql _ hsub
  simp [aql_query, hpair, hm]

/-- C5 witness: the single-page example server yields one call and the
page's items. -/
theorem aql_query_single_page_witness :
    aql_query exDb1 Json.asInt 10 (AqlQuery.new "q")
        = ([queryReq exDb1 (AqlQuery.new "q")], .ok [7])
      ∧ (aql_query exDb1 Json.asInt 10 (AqlQuery.new "q")).1.length = 1 := by
  have h := aql_query_single_page exDb1 Json.asInt 10 (AqlQuery.new "q")
    ⟨[7], false, none, none⟩ (by decide) rfl
  simpa using h

/-- C2: when the advance for some later page fails after `k` successful
advances, `aql_query` returns that error and never a list of items: no
partial accumulated results are surfaced. -/
theorem aql_query_error_no_partial (db : Database) (dec : Json → Option α)
    (fuel : Nat) (aql : AqlQuery) (c : Cursor α) (k : Nat) (e : Err)
    (hsub : (aql_query_batch db dec aql).2 = .ok c)
    (hfail : ChainFails db dec e c k) (hfuel : k < fuel) :
    (aql_query db dec fuel aql).2 = .fail e
      ∧ ∀ items, (aql_query db dec fuel aql).2 ≠ .ok items := by
  have hpair := query_batch_pair db dec aql _ hsub
  have hmore : c.more = true := by
    cases k with
    | zero => simp only [ChainFails] at hfail; exact hfail.1
    | succ k => simp only [ChainFails] at hfail; exact hfail.1
  have h := fetch_loop_chainFails db dec e k c [] fuel hfail hfuel
  simp only [aql_query, hpair, hmore, if_true]
  constructor
  · simpa [aql_fetch_all] using h
  · intro items
    simp [aql_fetch_all] at h ⊢
    simp [h]

/-- C2 witness: with the continuation fetch failing at the transport, the
two-page run returns the error and no items. -/
theorem aql_query_error_no_partial_witness :
    (aql_query exDb2 Json.asInt 10 (AqlQuery.new "q")).2
        = .fail (.TransportError "boom")
      ∧ ∀ items, (aql_query exDb2 Json.asInt 10 (AqlQuery.new "q")).2
          ≠ .ok items := by
  have h := aql_query_error_no_partial exDb2 Json.asInt 10 (AqlQuery.new "q")
    p1 0 (.TransportError "boom") (by decide)
    (by exact ⟨rfl, "c1", rfl, by decide⟩) (by omega)
  simpa using h

/-- C1: the code drops the final page's items.  On the two-page example
chain (page 1 holds item 1 with `hasMore = true`, page 2 holds items 2
and 3 with `hasMore = false`), `aql_query` returns only page 1's items,
not the concatenation of both pages, because the loop of `aql_fetch_all`
breaks on `more == false` without appending the last cursor's `result`. -/
theorem aql_query_drops_final_page :
    (aql_query exDb Json.asInt 10 (AqlQuery.new "q")).2 = .ok [1]
      ∧ (aql_query exDb Json.asInt 10 (AqlQuery.new "q")).2
          ≠ .ok [1, 2, 3] := by
  exact ⟨by decide, by decide⟩

/-- C3: for every decoded cursor, `more = true` implies the continuation
id is present; a success envelope claiming further pages without an id is
never decoded into a cursor, and on the concrete violating body the
decoder returns a protocol error in the `Except` result (a failed
`Result`, not a silent default and not a crash — the decoder is a total
function). -/
theorem cursor_decoder_id_invariant (dec : Json → Option α)
    (raw : Option Json) (c : Cursor α) (body : Json)
    (hok : serialize_query_response dec raw = .ok c)
    (hmore : c.more = true)
    (hbm : body.getField "hasMore" = some (.bool true))
    (hbid : body.getField "id" = none) :
    (∃ s, c.id = some s)
      ∧ (∀ c', serialize_query_response dec (some body) ≠ .ok c')
      ∧ serialize_query_response Json.asInt (some noIdBody)
          = .error (.ProtocolViolation "hasMore is true but id is absent") := by
  refine ⟨?_, ?_, by decide⟩
  · rcases raw with _ | body'
    · simp [serialize_query_response] at hok
    · simp only [serialize_query_response] at hok
      repeat' split at hok
      all_goals simp_all
      subst hok
      simp_all [Option.isNone_iff_eq_none]
      exact Option.ne_none_iff_exists'.mp (by simp_all)
  · intro c' h
    simp only [serialize_query_response] at h
    repeat' split at h
    all_goals simp_all [decodeOptStr]

/-- C6: the decoder inspects the boolean `error` discriminant first: a
body whose `error` field is `true` never yields `SchemaMismatch`; the
concrete 404 failure envelope yields a `ServerError` carrying its status,
error number and message; a success envelope whose result items are
objects while the expected item type is a plain integer yields
`SchemaMismatch`; and the two kinds are distinguishable. -/
theorem decoder_error_discrimination (dec : Json → Option α) (body : Json)
    (herr : body.getField "error" = some (.bool true)) :
    serialize_query_response dec (some body) ≠ .error .SchemaMismatch
      ∧ serialize_query_response Json.asInt (some err404Body)
          = .error (.ServerError 404 1600 "cursor not found")
      ∧ serialize_query_response Json.asInt (some mismatchBody)
          = .error .SchemaMismatch
      ∧ ∀ status errorNum message,
          (Err.SchemaMismatch) ≠ .ServerError status errorNum message := by
  refine ⟨?_, by decide, by decide, by intro s n msg h; cases h⟩
  intro h
  simp only [serialize_query_response, herr] at h
  repeat' split at h
  all_goals simp_all

/-- C7: the submit issues exactly one POST to the base address joined
with `_api/cursor`, its body the serialized query; the advance issues
exactly one PUT to the base address joined with `_api/cursor/` and the
continuation id, with an empty body; both feed the transport's response
to the envelope decoder and propagate a transport error unchanged. -/
theorem batch_request_shapes (db : Database) (dec : Json → Option α)
    (aql : AqlQuery) (cursor_id : String) :
    (aql_query_batch db dec aql).1
        = [⟨.POST, urlJoin db.base_url "_api/cursor", serializeAql aql⟩]
      ∧ (aql_next_batch db dec cursor_id).1
          = [⟨.PUT, urlJoin db.base_url ("_api/cursor/" ++ cursor_id), ""⟩]
      ∧ (∀ raw, db.session (queryReq db aql) = .ok raw →
          (aql_query_batch db dec aql).2 = serialize_query_response dec raw)
      ∧ (∀ raw, db.session (cursorReq db cursor_id) = .ok raw →
          (aql_next_batch db dec cursor_id).2 = serialize_query_response dec raw)
      ∧ (∀ e, db.session (queryReq db aql) = .error e →
          (aql_query_batch db dec aql).2 = .error e)
      ∧ (∀ e, db.session (cursorReq db cursor_id) = .error e →
          (aql_next_batch db dec cursor_id).2 = .error e) := by
  refine ⟨rfl, rfl, ?_, ?_, ?_, ?_⟩
  · intro raw h; simp [aql_query_batch, h]
  · intro raw h; simp [aql_next_batch, h]
  · intro e h; simp [aql_query_batch, h]
  · intro e h; simp [aql_next_batch, h]

/-- C7 witness: the shapes at the example context, with the decoder run
on the concrete responses of the example server. -/
theorem batch_request_shapes_witness :
    (aql_query_batch exDb Json.asInt (AqlQuery.new "q")).1
        = [⟨.POST, urlJoin exDb.base_url "_api/cursor",
            serializeAql (AqlQuery.new "q")⟩]
      ∧ (aql_next_batch exDb Json.asInt "c1").1
          = [⟨.PUT, urlJoin exDb.base_url ("_api/cursor/" ++ "c1"), ""⟩]
      ∧ (aql_query_batch exDb Json.asInt (AqlQuery.new "q")).2
          = serialize_query_response Json.asInt (some page1Body)
      ∧ (aql_next_batch exDb Json.asInt "c1").2
          = serialize_query_response Json.asInt (some page2Body) := by
  have h := batch_request_shapes exDb Json.asInt (AqlQuery.new "q") "c1"
  exact ⟨h.1, h.2.1, h.2.2.1 (some page1Body) rfl,
    h.2.2.2.1 (some page2Body) rfl⟩

/-- C9: the state-passing reading of the `&self` calls returns the
context unchanged (name, base address, session handle); running a call
after another call behaves exactly as running it fresh; and every call
issues exactly one network request — no page is ever served from a
client-side cache. -/
theorem query_calls_stateless_frame (db : Database)
    (dec dec' : Json → Option α) (aql : AqlQuery) (cursor_id : String) :
    (aql_query_batch_step db dec aql).1 = db
      ∧ (aql_next_batch_step db dec cursor_id).1 = db
      ∧ (aql_query_batch_step db dec aql).1.name = db.name
      ∧ (aql_query_batch_step db dec aql).1.base_url = db.base_url
      ∧ (aql_query_batch_step db dec aql).1.session = db.session
      ∧ aql_next_batch_step (aql_query_batch_step db dec aql).1 dec' cursor_id
          = aql_next_batch_step db dec' cursor_id
      ∧ aql_query_batch_step (aql_next_batch_step db dec cursor_id).1 dec' aql
          = aql_query_batch_step db dec' aql
      ∧ (aql_query_batch db dec aql).1.length = 1
      ∧ (aql_next_batch db dec cursor_id).1.length = 1 :=
  ⟨rfl, rfl, rfl, rfl, rfl, rfl, rfl, rfl, rfl⟩

theorem insertVar_comm (k k' : String) (v v' : Json) (hne : k ≠ k') :
    ∀ l, insertVar k v (insertVar k' v' l) = insertVar k' v' (insertVar k v l) := by
  have hne' : k' ≠ k := hne.symm
  intro l
  induction l with
  | nil =>
    rcases lt_or_gt_of_ne hne with h | h
    · simp [insertVar, hne, hne', h, asymm h]
    · simp [insertVar, hne, hne', h, asymm h]
  | cons kv rest ih =>
    obtain ⟨a, b⟩ := kv
    rcases lt_trichotomy k a with hka | hka | hka <;>
      rcases lt_trichotomy k' a with hk'a | hk'a | hk'a
    · rcases lt_or_gt_of_ne hne with h | h
      · simp [insertVar, hne, hne', hka, hk'a, ne_of_lt hka, ne_of_lt hk'a,
          h, asymm h]
      · simp [insertVar, hne, hne', hka, hk'a, ne_of_lt hka, ne_of_lt hk'a,
          h, asymm h]
    · subst hk'a
      simp [insertVar, hne, hne', hka, ne_of_lt hka, asymm hka]
    · have hkk' : k < k' := lt_trans hka hk'a
      simp [insertVar, hne, hne', hka, hk'a, ne_of_lt hka, ne_of_gt hk'a,
        asymm hk'a, hkk', asymm hkk']
    · subst hka
      simp [insertVar, hne, hne', hk'a, ne_of_lt hk'a, asymm hk'a]
    · exact absurd (hka.trans hk'a.symm) hne
    · subst hka
      simp [insertVar, hne, hne', hk'a, ne_of_gt hk'a, asymm hk'a]
    · have hk'k : k' < k := lt_trans hk'a hka
      simp [insertVar, hne, hne', hka, hk'a, ne_of_gt hka, ne_of_lt hk'a,
        asymm hka, hk'k, asymm hk'k]
    · subst hk'a
      simp [insertVar, hne, hne', hka, ne_of_gt hka, asymm hka]
    · simp [insertVar, hne, hne', hka, hk'a, ne_of_gt hka, ne_of_gt hk'a,
        asymm hka, asymm hk'a, ih]

theorem bind_var_fold_perm (q : String) (m m' : List (String × Json))
    (hperm : m.Perm m') (hnd : (m.map Prod.fst).Nodup) :
    m.foldl (fun aql kv => aql.bind_var kv.1 kv.2) (AqlQuery.new q)
      = m'.foldl (fun aql kv => aql.bind_var kv.1 kv.2) (AqlQuery.new q) := by
  refine hperm.foldl_eq' ?_ _
  intro x hx y hy z
  by_cases hk : x.1 = y.1
  · have hxy : x = y := List.inj_on_of_nodup_map hnd hx hy hk
    rw [hxy]
  · simp only [AqlQuery.bind_var]
    rw [insertVar_comm y.1 x.1 y.2 x.2 (fun hh => hk hh.symm)]

/-- C10: `aql_str q` runs `aql_query` on the query built from `q` alone,
and `aql_bind_vars q m` runs `aql_query` on the query built from `q`
with exactly the bindings of `m` attached; the iteration order of the
bind-variable mapping (with its keys unique) is irrelevant to the
result. -/
theorem aql_convenience_wrappers (db : Database) (dec : Json → Option α)
    (fuel : Nat) (q : String) (m m' : List (String × Json))
    (hperm : m.Perm m') (hnd : (m.map Prod.fst).Nodup) :
    aql_str db dec fuel q = aql_query db dec fuel (AqlQuery.new q)
      ∧ aql_bind_vars db dec fuel q m
          = aql_query db dec fuel
              (m.foldl (fun aql kv => aql.bind_var kv.1 kv.2) (AqlQuery.new q))
      ∧ aql_bind_vars db dec fuel q m = aql_bind_vars db dec fuel q m' := by
  refine ⟨rfl, rfl, ?_⟩
  unfold aql_bind_vars
  rw [bind_var_fold_perm q m m' hperm hnd]

/-- C10 witness: the two iteration orders of a two-binding mapping yield
the same run on the example context. -/
theorem aql_convenience_wrappers_witness :
    aql_str exDb Json.asInt 10 "q" = aql_query exDb Json.asInt 10 (AqlQuery.new "q")
      ∧ aql_bind_vars exDb Json.asInt 10 "q" [("b", Json.num 1), ("a", Json.num 2)]
          = aql_query exDb Json.asInt 10
              ([(("b" : String), Json.num 1), ("a", Json.num 2)].foldl
                (fun aql kv => aql.bind_var kv.1 kv.2) (AqlQuery.new "q"))
      ∧ aql_bind_vars exDb Json.asInt 10 "q" [("b", Json.num 1), ("a", Json.num 2)]
          = aql_bind_vars exDb Json.asInt 10 "q" [("a", Json.num 2), ("b", Json.num 1)] := by
  exact aql_convenience_wrappers exDb Json.asInt 10 "q"
    [("b", Json.num 1), ("a", Json.num 2)] [("a", Json.num 2), ("b", Json.num 1)]
    (List.Perm.swap ("a", Json.num 2) ("b", Json.num 1) []) (by decide)

/-- C3 witness: the invariant and the rejection at the concrete example
pages. -/
theorem cursor_decoder_id_invariant_witness :
    (∃ s, p1.id = some s)
      ∧ (∀ c', serialize_query_response Json.asInt (some noIdBody) ≠ .ok c')
      ∧ serialize_query_response Json.asInt (some noIdBody)
          = .error (.ProtocolViolation "hasMore is true but id is absent") :=
  cursor_decoder_id_invariant Json.asInt (some page1Body) p1 noIdBody
    (by decide) rfl rfl rfl

/-- C6 witness: the discrimination at the concrete 404 failure
envelope. -/
theorem decoder_error_discrimination_witness :
    serialize_query_response Json.asInt (some err404Body)
        ≠ .error .SchemaMismatch
      ∧ serialize_query_response Json.asInt (some err404Body)
          = .error (.ServerError 404 1600 "cursor not found")
      ∧ serialize_query_response Json.asInt (some mismatchBody)
          = .error .SchemaMismatch
      ∧ ∀ status errorNum message,
          (Err.SchemaMismatch) ≠ .ServerError status errorNum message :=
  decoder_error_discrimination Json.asInt err404Body rfl
